import Mathlib

/-!
Shallow embedding of the smsdrop SDK (directory src/smsdrop of the
repository EdevTech/smsdrop-python) and proofs about the claims of its
specification.

The embedding follows the module that the package exports
(src/smsdrop/__init__.py imports Client from src/smsdrop/smsdrop.py and the
models from src/smsdrop/models.py, the storages from
src/smsdrop/storages.py).  Python dynamic values that the modelled code can
actually hold are embedded as the type PyVal, Python exceptions as PyErr,
and fallible Python code returns Except PyErr.
-/

namespace Smsdrop

/-- Embedding of the Python values the modelled code manipulates.  The
constructor written here as nonval stands for the Python value None. -/
inductive PyVal where
  | nonval
  | str (s : String)
  | int (n : Int)
  | bool (b : Bool)
  deriving Repr, DecidableEq

/-- A JSON object body or a Python dict, as an association list. -/
abbrev Obj := List (String × PyVal)

/-- Python truthiness of a PyVal: None is falsy, a string is truthy when
nonempty, an int when nonzero. -/
def pyTruthy : PyVal → Bool
  | PyVal.nonval => false
  | PyVal.str s => s ≠ ""
  | PyVal.int n => n ≠ 0
  | PyVal.bool b => b

/-- Python str() of a PyVal, as interpolated by an f-string such as the
string Bearer followed by the token in Client._refresh_token
(src/smsdrop/smsdrop.py line 82): str(None) is the four letter word None. -/
def pyStr : PyVal → String
  | PyVal.nonval => "None"
  | PyVal.str s => s
  | PyVal.int n => toString n
  | PyVal.bool b => cond b "True" "False"

/-- The Python exceptions raised by the modelled code
(src/smsdrop/exceptions.py is referenced by the source; the carried
payloads are the ones the call sites pass, except that BadTokenError is
modelled without its request-url payload, which no claim depends on). -/
inductive PyErr where
  | badCredentialsError (msg : String)
  | badTokenError
  | serverError (msg : String)
  | validationError (errors : PyVal)
  | insufficientSmsError (msg : String)
  | assertionFailed (msg : String)
  | keyError (key : String)
  | attributeError (name : String)
  | typeError (msg : String)
  | jsonDecodeError
  deriving Repr, DecidableEq

/-- Whether an Except value is a success. -/
def exceptOk {α : Type} : Except PyErr α → Bool
  | Except.ok _ => true
  | Except.error _ => false

/-- An HTTP response: its status code and its JSON body when the body
parses to a JSON object (Option.none models a body that is not a dict or
fails to parse). -/
structure Response where
  status : Nat
  body : Option Obj
  deriving Repr, DecidableEq

/-- get_json_response (src/smsdrop/helpers.py lines 9-19): returns the
parsed body when it is a nonempty dict, else the default dict with the
single key responsecode mapped to None (an empty dict is falsy in Python,
so it is also replaced by the default). -/
def get_json_response (r : Response) : Obj :=
  match r.body with
  | Option.none => [("responsecode", PyVal.nonval)]
  | some o => if o.isEmpty then [("responsecode", PyVal.nonval)] else o

/-! ## Campaign model (src/smsdrop/models.py) -/

/-- campaign_private_fields (src/smsdrop/models.py lines 21-27). -/
def campaign_private_fields : List String :=
  ["_id", "_sms_count", "_message_count", "_delivery_percentage", "_status"]

/-- campaign_public_fields (src/smsdrop/models.py lines 28-36). -/
def campaign_public_fields : List String :=
  ["title", "message", "message_type", "sender", "recipient_list",
   "defer_until", "defer_by"]

/-- The Campaign dataclass (src/smsdrop/models.py lines 39-61).
defer_until holds a datetime, embedded as an abstract Nat timestamp (a
Python datetime object is always truthy); defer_by holds an Optional int.
The private fields initialised by the dataclass are embedded with the
declared defaults; _id has no default in the source (field(init=False)
with no default, the attribute is unset until Campaign.update assigns it),
so it is embedded as an Option, Option.none meaning the attribute is not
set.  Campaign.update can assign arbitrary values from a response dict to
the private fields and to title, so those fields hold PyVal. -/
structure Campaign where
  message : String
  sender : String
  recipient_list : List String
  title : PyVal
  message_type : Int
  defer_until : Option Nat
  defer_by : Option Int
  stat : PyVal
  delivery_percentage : PyVal
  message_count : PyVal
  sms_count : PyVal
  campaign_id : Option PyVal
  deriving Repr, DecidableEq

/-- Truthiness of the Optional datetime defer_until: None is falsy and a
datetime object is always truthy. -/
def truthyDefer_until : Option Nat → Bool
  | Option.none => false
  | some _ => true

/-- Truthiness of the Optional int defer_by: None is falsy and an int is
truthy exactly when nonzero. -/
def truthyDefer_by : Option Int → Bool
  | Option.none => false
  | some n => n ≠ 0

/-- Campaign construction: the dataclass generated init followed by
Campaign.__post_init__ (src/smsdrop/models.py lines 58-61), which asserts
not (self.defer_until and self.defer_by) using Python truthiness. -/
def Campaign.init (message : String) (sender : String)
    (recipient_list : List String) (title : PyVal) (message_type : Int)
    (defer_until : Option Nat) (defer_by : Option Int) :
    Except PyErr Campaign :=
  if truthyDefer_until defer_until && truthyDefer_by defer_by then
    Except.error (PyErr.assertionFailed
      "use either defer_until or defer_by or neither, not both")
  else
    Except.ok
      { message := message
        sender := sender
        recipient_list := recipient_list
        title := title
        message_type := message_type
        defer_until := defer_until
        defer_by := defer_by
        stat := PyVal.str "PENDING"
        delivery_percentage := PyVal.int 0
        message_count := PyVal.int 1
        sms_count := PyVal.int 1
        campaign_id := Option.none }

/-- Campaign.update (src/smsdrop/models.py lines 100-103).  The loop first
assigns data.get(f) to every private field (data.get returns None for a
missing key), then the final line reads data with the subscript title,
which raises KeyError when the key is absent.  Python mutates the object
in place, so the embedding returns the outcome together with the object
state reached when the outcome is produced: the private-field assignments
have already happened when the KeyError is raised. -/
def Campaign.update (cp : Campaign) (data : Obj) :
    Except PyErr Unit × Campaign :=
  let dget : String → PyVal := fun k => (List.lookup k data).getD PyVal.nonval
  let cp1 : Campaign :=
    { cp with
      campaign_id := some (dget "id")
      sms_count := dget "sms_count"
      message_count := dget "message_count"
      delivery_percentage := dget "delivery_percentage"
      stat := dget "status" }
  match List.lookup "title" data with
  | some t => (Except.ok (), { cp1 with title := t })
  | Option.none => (Except.error (PyErr.keyError "title"), cp1)

/-! ## Token storages (src/smsdrop/storages.py)

Each backend is embedded together with the calling convention of its set
method, because the three set signatures differ: SimpleDict.set takes
(key, value) only, Redis.set takes (key, value, ex) with ex required, and
Dummy.set takes anything.  A call is embedded as the SetCall record below;
ex is the optional expiry keyword argument.  A Python call whose arguments
do not fit the signature raises TypeError before the body runs. -/

/-- The shape of a storage.set call: positional key and value, plus the
optional expiry argument ex (Option.none when the caller does not pass
it). -/
structure SetCall where
  key : String
  value : PyVal
  ex : Option Int
  deriving Repr, DecidableEq

/-- A Python dict state, as an association list. -/
abbrev Dict := List (String × PyVal)

/-- Python dict assignment d[k] = v. -/
def dictInsert (d : Dict) (k : String) (v : PyVal) : Dict :=
  (k, v) :: d.filter (fun p => p.1 ≠ k)

/-- Python dict removal, as used by dict.pop and by the delete methods. -/
def dictRemove (d : Dict) (k : String) : Dict :=
  d.filter (fun p => p.1 ≠ k)

namespace SimpleDict

/-- SimpleDict.get (src/smsdrop/storages.py lines 39-40):
self.data.get(key, None). -/
def get (d : Dict) (key : String) : PyVal :=
  (List.lookup key d).getD PyVal.nonval

/-- SimpleDict.set (src/smsdrop/storages.py lines 42-43): the signature is
set(self, key, value); a call that passes the expiry argument ex raises
TypeError, since the method accepts no such parameter. -/
def set (d : Dict) (c : SetCall) : Except PyErr Dict :=
  match c.ex with
  | some _ => Except.error (PyErr.typeError
      "set got an unexpected keyword argument ex")
  | Option.none => Except.ok (dictInsert d c.key c.value)

/-- SimpleDict.delete (src/smsdrop/storages.py lines 45-46):
self.data.pop(key), which raises KeyError when the key is absent. -/
def delete (d : Dict) (key : String) : Except PyErr Dict :=
  if (List.lookup key d).isSome then Except.ok (dictRemove d key)
  else Except.error (PyErr.keyError key)

end SimpleDict

namespace Dummy

/-- Dummy.get (src/smsdrop/storages.py lines 25-26): does nothing and
returns None. -/
def get (_key : String) : PyVal := PyVal.nonval

/-- Dummy.set (src/smsdrop/storages.py lines 28-29): accepts any
arguments and does nothing. -/
def set (_c : SetCall) : Except PyErr Unit := Except.ok ()

/-- Dummy.delete (src/smsdrop/storages.py lines 31-32): accepts any key
and does nothing. -/
def delete (_key : String) : Except PyErr Unit := Except.ok ()

end Dummy

namespace Redis

/-- Redis.get (src/smsdrop/storages.py lines 60-61): the remote key-value
lookup, absent keys give None. -/
def get (d : Dict) (key : String) : PyVal :=
  (List.lookup key d).getD PyVal.nonval

/-- Redis.set (src/smsdrop/storages.py lines 63-64): the signature is
set(self, key, value, ex) with ex required, so a call that omits ex
raises TypeError; a call with ex stores the value under the key (the
expiry itself is kept by the remote store and is not modelled beyond the
call shape). -/
def set (d : Dict) (c : SetCall) : Except PyErr Dict :=
  match c.ex with
  | some _ => Except.ok (dictInsert d c.key c.value)
  | Option.none => Except.error (PyErr.typeError
      "set missing 1 required positional argument ex")

/-- Redis.delete (src/smsdrop/storages.py lines 66-67): deleting an
absent key is a no-op for the remote store. -/
def delete (d : Dict) (key : String) : Except PyErr Dict :=
  Except.ok (dictRemove d key)

end Redis

/-- Modelled from the spec: TOKEN_LIFETIME lives in src/smsdrop/constants.py,
which is not under src/; the spec gives the token TTL as roughly one hour,
and only the presence of the argument matters to the claims. -/
def TOKEN_LIFETIME : Int := 3600

/-- The exact call shape Client._set_token issues
(src/smsdrop/smsdrop.py lines 92-93):
storage.set(self._token_storage_key, new_token, ex=TOKEN_LIFETIME), where
the key is the string bearer_token_ followed by the account password
(src/smsdrop/smsdrop.py lines 84-86). -/
def clientSetTokenCall (password : String) (new_token : PyVal) : SetCall :=
  { key := "bearer_token_" ++ password
    value := new_token
    ex := some TOKEN_LIFETIME }

/-! ## The Client request flow (src/smsdrop/smsdrop.py)

The remote API is the environment: env.login k is the response of the
login endpoint to the k-th login request of the run, env.target k the
response of the target endpoint to the k-th target request.  The client
state carries the token cache entry, the Authorization header of the
underlying http client, the two request counters and the ordered trace of
issued HTTP requests.  The token storage is modelled by the BaseStorage
contract that the conforming backends implement (get returns the stored
value or None, set stores, delete removes); the incompatible set
signature of SimpleDict is treated separately in the storages section
above.  The
log_request_error decorator only logs and re-raises, and request paths
and bodies sent do not affect any claim, so neither is modelled. -/

/-- The remote endpoints, as response oracles indexed by how many requests
of that kind were already made. -/
structure Env where
  login : Nat → Response
  target : Nat → Response

/-- One issued HTTP request: a login request (sent by Client._login with
plain httpx.post, without the Authorization header), or a target request
carrying the Authorization header the http client had at send time. -/
inductive Event where
  | login
  | target (auth : Option String)
  deriving Repr, DecidableEq

/-- The mutable client state: cache is the token storage entry under the
client token key (Option.none when the key is absent), auth the
Authorization header of the http client, nLogin and nTarget the request
counters, trace the ordered requests issued so far. -/
structure CState where
  cache : Option PyVal
  auth : Option String
  nLogin : Nat
  nTarget : Nat
  trace : List Event
  deriving Repr, DecidableEq

/-- storage.get at the client token key, per the storage contract: the
stored value, or None when the key is absent. -/
def storGet (cache : Option PyVal) : PyVal :=
  cache.getD PyVal.nonval

namespace Client

/-- Client._login (src/smsdrop/smsdrop.py lines 95-106): posts the
credentials to the login endpoint; a 400 response raises
BadCredentialsError, a 200 response yields body access_token (KeyError
when the parsed body lacks the key), and any other status falls through
the function, returning None. -/
def login (env : Env) (s : CState) : Except PyErr PyVal × CState :=
  let r := env.login s.nLogin
  let s1 : CState :=
    { s with nLogin := s.nLogin + 1, trace := s.trace ++ [Event.login] }
  if r.status = 400 then
    (Except.error (PyErr.badCredentialsError "Your credentials are incorrect"), s1)
  else if r.status = 200 then
    match List.lookup "access_token" (get_json_response r) with
    | some v => (Except.ok v, s1)
    | Option.none => (Except.error (PyErr.keyError "access_token"), s1)
  else
    (Except.ok PyVal.nonval, s1)

/-- Client._refresh_token (src/smsdrop/smsdrop.py lines 79-82): logs in,
stores the result under the token key (Client._set_token), then sets the
Authorization header to the string Bearer followed by a space and
str(storage.get(key)). -/
def refresh_token (env : Env) (s : CState) : Except PyErr Unit × CState :=
  match login env s with
  | (Except.error e, s1) => (Except.error e, s1)
  | (Except.ok tok, s1) =>
    let s2 : CState := { s1 with cache := some tok }
    let s3 : CState :=
      { s2 with auth := some ("Bearer " ++ pyStr (storGet s2.cache)) }
    (Except.ok (), s3)

/-- The request-issuing tail of one attempt of Client._send_request
(src/smsdrop/smsdrop.py lines 119-137): issue the request, then map the
status: 401 deletes the cached token and raises BadTokenError, a 5xx
status (httpx is_server_error, 500 to 599) raises ServerError, 422 raises
ValidationError carrying the body field detail (response.json()
subscripted with detail), any other status returns the response. -/
def request_and_map (env : Env) (s1 : CState) :
    Except PyErr Response × CState :=
  let r := env.target s1.nTarget
  let s2 : CState :=
    { s1 with
      nTarget := s1.nTarget + 1
      trace := s1.trace ++ [Event.target s1.auth] }
  if r.status = 401 then
    (Except.error PyErr.badTokenError, { s2 with cache := Option.none })
  else if 500 ≤ r.status ∧ r.status ≤ 599 then
    (Except.error (PyErr.serverError "The server is failing, try later"), s2)
  else if r.status = 422 then
    match r.body with
    | some o =>
      match List.lookup "detail" o with
      | some d => (Except.error (PyErr.validationError d), s2)
      | Option.none => (Except.error (PyErr.keyError "detail"), s2)
    | Option.none => (Except.error PyErr.jsonDecodeError, s2)
  else
    (Except.ok r, s2)

/-- One attempt of Client._send_request (src/smsdrop/smsdrop.py lines
114-137, the decorated body): refresh the token when the cached one is
falsy (lines 117-118), then issue the request and map the status
(request_and_map above). -/
def send_request_once (env : Env) (s : CState) :
    Except PyErr Response × CState :=
  let step : Except PyErr Unit × CState :=
    if pyTruthy (storGet s.cache) then (Except.ok (), s)
    else refresh_token env s
  match step with
  | (Except.error e, s1) => (Except.error e, s1)
  | (Except.ok _, s1) => request_and_map env s1

/-- The retry predicate of the tenacity decorator on Client._send_request
(src/smsdrop/smsdrop.py line 110): retry_if_exception_type(BadTokenError). -/
def isBadToken : Except PyErr Response → Bool
  | Except.error PyErr.badTokenError => true
  | _ => false

/-- Client._send_request with its tenacity decorator
(src/smsdrop/smsdrop.py lines 108-112): stop_after_attempt(2),
retry_if_exception_type(BadTokenError), reraise=True.  A first attempt
that raises BadTokenError is followed by exactly one more attempt whose
outcome, success or any exception, is final; any other first outcome is
final immediately. -/
def send_request (env : Env) (s : CState) :
    Except PyErr Response × CState :=
  let a1 := send_request_once env s
  if isBadToken a1.1 then send_request_once env a1.2 else a1

/-- Client.launch_campaign (src/smsdrop/smsdrop.py lines 170-195): sends
the campaign payload, then on a 201 status reads body id, calls
campaign.update with the one-key dict id, and raises
InsufficientSmsError; on any other returned status calls campaign.update
with the whole parsed body.  The campaign object travels in the result
because Campaign.update mutates it in place even when it raises. -/
def launch_campaign (env : Env) (s : CState) (campaign : Campaign) :
    Except PyErr Unit × CState × Campaign :=
  match send_request env s with
  | (Except.error e, s1) => (Except.error e, s1, campaign)
  | (Except.ok r, s1) =>
    let content := get_json_response r
    if r.status = 201 then
      match List.lookup "id" content with
      | Option.none => (Except.error (PyErr.keyError "id"), s1, campaign)
      | some idv =>
        match Campaign.update campaign [("id", idv)] with
        | (Except.error e, cp1) => (Except.error e, s1, cp1)
        | (Except.ok _, cp1) =>
          (Except.error (PyErr.insufficientSmsError
            "Insufficient sms credits to launch this campaign"), s1, cp1)
    else
      match Campaign.update campaign content with
      | (Except.error e, cp1) => (Except.error e, s1, cp1)
      | (Except.ok _, cp1) => (Except.ok (), s1, cp1)

/-- Client.read_campaign (src/smsdrop/smsdrop.py lines 228-239): sends a
GET for the id, returns None on a 404 status, and otherwise evaluates
Campaign.from_dict(data=content).  src/smsdrop/models.py defines the
classmethod from_response but no attribute from_dict, so that attribute
access raises AttributeError. -/
def read_campaign (env : Env) (s : CState) :
    Except PyErr (Option Campaign) × CState :=
  match send_request env s with
  | (Except.error e, s1) => (Except.error e, s1)
  | (Except.ok r, s1) =>
    if r.status = 404 then (Except.ok Option.none, s1)
    else (Except.error (PyErr.attributeError "from_dict"), s1)

end Client

/-! ## Concrete environments and states used by the concrete theorems -/

/-- An environment whose two endpoints always answer with fixed
responses. -/
def constEnv (ls ts : Response) : Env :=
  { login := fun _ => ls, target := fun _ => ts }

/-- A login response carrying an access token. -/
def loginOK : Response :=
  { status := 200, body := some [("access_token", PyVal.str "tok1")] }

/-- A client state with an empty token cache and no Authorization
header, as after construction with a storage holding nothing. -/
def state0 : CState :=
  { cache := Option.none
    auth := Option.none
    nLogin := 0
    nTarget := 0
    trace := [] }

/-- A client state holding a truthy cached token whose value is already
installed in the Authorization header. -/
def stateT : CState :=
  { cache := some (PyVal.str "cached-token")
    auth := some "Bearer cached-token"
    nLogin := 0
    nTarget := 0
    trace := [] }

/-- A concrete freshly constructed campaign (the state Campaign.init
produces for a plain one-recipient campaign). -/
def cp0 : Campaign :=
  { message := "hello"
    sender := "TESTSMS"
    recipient_list := ["+22911111111"]
    title := PyVal.nonval
    message_type := 0
    defer_until := Option.none
    defer_by := Option.none
    stat := PyVal.str "PENDING"
    delivery_percentage := PyVal.int 0
    message_count := PyVal.int 1
    sms_count := PyVal.int 1
    campaign_id := Option.none }

/-- Environment for the C10 witness: the login endpoint answers 503. -/
def envC10w : Env :=
  constEnv { status := 503, body := Option.none }
    { status := 200, body := some [("title", PyVal.nonval)] }

/-- Environment for the C1 witness: every target request answers 401. -/
def envC1w : Env :=
  constEnv loginOK { status := 401, body := Option.none }

/-- Environment for the C2 witness: the target request answers 200. -/
def envC2w : Env :=
  constEnv loginOK { status := 200, body := some [("title", PyVal.nonval)] }

/-- Environment for the C3 witness: the first target request answers
401, later ones 200. -/
def envC3w : Env :=
  { login := fun _ => loginOK
    target := fun k =>
      if k = 0 then { status := 401, body := Option.none }
      else { status := 200, body := some [("title", PyVal.nonval)] } }

/-- Environment for the C4 witness: the target request answers 503. -/
def envC4w : Env :=
  constEnv loginOK { status := 503, body := Option.none }

/-- Environment for the 201 conjunct of C4: a campaign launch whose
target request answers 201 with a body holding the created id. -/
def envC4a : Env :=
  constEnv loginOK { status := 201, body := some [("id", PyVal.str "cmp-7")] }

/-- Environment for the success conjunct of C4: a campaign launch whose
target request answers 200 with a full campaign body. -/
def envC4b : Env :=
  constEnv loginOK
    { status := 200
      body := some [("id", PyVal.str "cmp-7"), ("title", PyVal.str "t"),
        ("status", PyVal.str "PENDING"), ("delivery_percentage", PyVal.int 0),
        ("message_count", PyVal.int 1), ("sms_count", PyVal.int 1)] }

/-- Environment for C6: a campaign launch whose target request answers
201 with a body holding the created id. -/
def envC6 : Env :=
  constEnv loginOK { status := 201, body := some [("id", PyVal.str "cmp-42")] }

/-- Environment for the C9 witness: the target request answers 404. -/
def envC9w : Env :=
  constEnv loginOK { status := 404, body := Option.none }

/-! ## Claims about the Campaign model -/

/-- C7 counterexample: against the claim, a Campaign constructed with
both defer_until and defer_by set does not always fail validation: with
defer_until set and defer_by set to the int 0, the assert in
Campaign.__post_init__ passes because 0 is falsy in Python, and
construction succeeds. -/
theorem C7_counterexample :
    (some 1 : Option Nat).isSome = true ∧
    (some 0 : Option Int).isSome = true ∧
    exceptOk (Campaign.init "hello" "TESTSMS" ["+22911111111"] PyVal.nonval 0
      (some 1) (some 0)) = true := by decide

/-- C7 (amended): Campaign construction fails exactly when defer_until is
set and defer_by is set to a nonzero int; in particular it fails for every
pair of truthy values, succeeds when at most one of the two is set, but
also succeeds when both are set and defer_by is 0. -/
theorem C7_defer_mutual_exclusion (m sender : String) (rl : List String)
    (t : PyVal) (mt : Int) (du : Option Nat) (db : Option Int) :
    exceptOk (Campaign.init m sender rl t mt du db) = false ↔
      du.isSome = true ∧ ∃ n, db = some n ∧ n ≠ 0 := by
  cases du <;> cases db <;>
    simp [Campaign.init, truthyDefer_until, truthyDefer_by, exceptOk]
  rename_i n
  by_cases h : n = 0 <;> simp [h]

/-- C8 counterexample: against the claim, a Campaign with a 12-character
alphanumeric sender and an empty recipient list is accepted: the source
Campaign.__post_init__ validates nothing but the defer fields. -/
theorem C8_counterexample :
    "ABCDEFGHIJKL".length = 12 ∧
    exceptOk (Campaign.init "hello" "ABCDEFGHIJKL" [] PyVal.nonval 0
      Option.none Option.none) = true := by decide

/-- C8 (amended): Campaign construction enforces no recipient-list or
sender constraint: for every sender string and every recipient list,
including the empty list, construction succeeds when the defer fields are
unset (so an 11-character alphanumeric sender passes, and a 12-character
one passes as well instead of failing). -/
theorem C8_no_recipient_or_sender_validation (m sender : String)
    (rl : List String) :
    exceptOk (Campaign.init m sender rl PyVal.nonval 0 Option.none
      Option.none) = true := by
  simp [Campaign.init, truthyDefer_until, exceptOk]

/-! ## Claims about the storages and the campaign-launch error paths -/

/-- C5: the token-store backends are not interchangeable behind the
claimed set(key, value, ttl) contract: the token write of the client
itself
(storage.set with the keyword argument ex, the call _set_token always
makes) raises TypeError on the default in-memory SimpleDict backend,
whose set method accepts only (key, value); the Dummy and Redis backends
do accept the call, and Redis returns the stored value on a subsequent
get. -/
theorem C5_simpledict_rejects_client_token_write :
    SimpleDict.set [] (clientSetTokenCall "pw" (PyVal.str "tok"))
      = Except.error (PyErr.typeError
          "set got an unexpected keyword argument ex") ∧
    Dummy.set (clientSetTokenCall "pw" (PyVal.str "tok")) = Except.ok () ∧
    Redis.set [] (clientSetTokenCall "pw" (PyVal.str "tok"))
      = Except.ok [("bearer_token_pw", PyVal.str "tok")] ∧
    Redis.get [("bearer_token_pw", PyVal.str "tok")] "bearer_token_pw"
      = PyVal.str "tok" :=
  ⟨rfl, rfl, rfl, rfl⟩

/-- C6: when the server answers 201 to a campaign launch, the campaign
object is indeed updated with the returned id, but the call then raises
KeyError on the key title, not InsufficientSmsError: Campaign.update
assigns the private fields first and then unconditionally reads
data with the subscript title, and launch_campaign passes it the one-key
dict holding only the id. -/
theorem C6_launch_201_sets_id_but_raises_keyerror :
    (Client.launch_campaign envC6 stateT cp0).1
      = Except.error (PyErr.keyError "title") ∧
    (Client.launch_campaign envC6 stateT cp0).2.2.campaign_id
      = some (PyVal.str "cmp-42") ∧
    (Client.launch_campaign envC6 stateT cp0).1
      ≠ Except.error (PyErr.insufficientSmsError
          "Insufficient sms credits to launch this campaign") := by
  refine ⟨rfl, rfl, fun hc => ?_⟩
  rw [show (Client.launch_campaign envC6 stateT cp0).1
      = Except.error (PyErr.keyError "title") from rfl] at hc
  simp at hc

/-! ## Claims about the authenticated request flow -/

/-- C10: Client._login raises BadCredentialsError exactly when the login
endpoint answers 400, and on any status other than 400 and 200 it raises
nothing and returns None, which Client._refresh_token stores in the token
cache and installs in the Authorization header as the literal string
Bearer None. -/
theorem C10_login_status_mapping (env : Env) (s : CState) :
    ((Client.login env s).1 = Except.error
        (PyErr.badCredentialsError "Your credentials are incorrect")
      ↔ (env.login s.nLogin).status = 400) ∧
    ((env.login s.nLogin).status ≠ 400 → (env.login s.nLogin).status ≠ 200 →
      (Client.login env s).1 = Except.ok PyVal.nonval ∧
      (Client.refresh_token env s).1 = Except.ok () ∧
      (Client.refresh_token env s).2.cache = some PyVal.nonval ∧
      (Client.refresh_token env s).2.auth = some "Bearer None") := by
  constructor
  · by_cases h4 : (env.login s.nLogin).status = 400
    · simp [Client.login, h4]
    · by_cases h2 : (env.login s.nLogin).status = 200
      · cases hl : List.lookup "access_token"
            (get_json_response (env.login s.nLogin)) <;>
          simp [Client.login, h4, h2, hl]
      · simp [Client.login, h4, h2]
  · intro h4 h2
    simp [Client.login, Client.refresh_token, h4, h2, storGet, pyStr]

/-- C10 witness: with a login endpoint answering 503, refreshing the
token installs the header Bearer None. -/
theorem C10_witness :
    (Client.refresh_token envC10w state0).2.auth = some "Bearer None" :=
  ((C10_login_status_mapping envC10w state0).2 (by decide) (by decide)).2.2.2

/-- Helper: when the login endpoint answers 200 with an access token,
Client._refresh_token succeeds, stores the token, installs the bearer
header, and issues exactly one login request. -/
theorem refresh_token_of_token (env : Env) (s : CState) (tok : String)
    (hst : (env.login s.nLogin).status = 200)
    (hbody : (env.login s.nLogin).body = some [("access_token", PyVal.str tok)]) :
    Client.refresh_token env s =
      (Except.ok (),
        { cache := some (PyVal.str tok)
          auth := some ("Bearer " ++ tok)
          nLogin := s.nLogin + 1
          nTarget := s.nTarget
          trace := s.trace ++ [Event.login] }) := by
  simp [Client.refresh_token, Client.login, hst, hbody, get_json_response,
    storGet, pyStr, List.lookup]

/-- Helper: when the target endpoint does not answer 401, the
request-and-map stage increments the target counter, appends the one
target request event, leaves cache and header alone, and its outcome is
not a BadTokenError (so the tenacity wrapper does not retry). -/
theorem request_and_map_not401 (env : Env) (s1 : CState)
    (htar : (env.target s1.nTarget).status ≠ 401) :
    (Client.request_and_map env s1).2 =
      { s1 with
        nTarget := s1.nTarget + 1
        trace := s1.trace ++ [Event.target s1.auth] } ∧
    Client.isBadToken (Client.request_and_map env s1).1 = false := by
  unfold Client.request_and_map
  rw [if_neg htar]
  split_ifs <;> (try split) <;> (try split) <;> simp [Client.isBadToken]

/-- Helper: when the target endpoint answers 401, the request-and-map
stage deletes the cached token and raises BadTokenError. -/
theorem request_and_map_401 (env : Env) (s1 : CState)
    (htar : (env.target s1.nTarget).status = 401) :
    Client.request_and_map env s1 =
      (Except.error PyErr.badTokenError,
        { s1 with
          cache := Option.none
          nTarget := s1.nTarget + 1
          trace := s1.trace ++ [Event.target s1.auth] }) := by
  unfold Client.request_and_map
  rw [if_pos htar]

/-- Helper: with a truthy cached token, one attempt skips the refresh. -/
theorem send_request_once_truthy (env : Env) (s : CState)
    (h : pyTruthy (storGet s.cache) = true) :
    Client.send_request_once env s = Client.request_and_map env s := by
  simp [Client.send_request_once, h]

/-- Helper: with a falsy cached token and a login endpoint answering 200
with a token, one attempt refreshes first and then runs the
request-and-map stage from the refreshed state. -/
theorem send_request_once_refresh (env : Env) (s : CState) (tok : String)
    (hcache : pyTruthy (storGet s.cache) = false)
    (hst : (env.login s.nLogin).status = 200)
    (hbody : (env.login s.nLogin).body = some [("access_token", PyVal.str tok)]) :
    Client.send_request_once env s =
      Client.request_and_map env
        { cache := some (PyVal.str tok)
          auth := some ("Bearer " ++ tok)
          nLogin := s.nLogin + 1
          nTarget := s.nTarget
          trace := s.trace ++ [Event.login] } := by
  simp [Client.send_request_once, hcache,
    refresh_token_of_token env s tok hst hbody]

/-- Helper: the tenacity wrapper returns the first attempt unchanged when
its outcome is not a BadTokenError. -/
theorem send_request_no_retry (env : Env) (s : CState)
    (h : Client.isBadToken (Client.send_request_once env s).1 = false) :
    Client.send_request env s = Client.send_request_once env s := by
  simp [Client.send_request, h]

/-- Helper: the tenacity wrapper runs exactly one more attempt when the
first raises BadTokenError. -/
theorem send_request_retry (env : Env) (s : CState)
    (h : Client.isBadToken (Client.send_request_once env s).1 = true) :
    Client.send_request env s =
      Client.send_request_once env (Client.send_request_once env s).2 := by
  simp [Client.send_request, h]

/-- C2: an authenticated call made while the token store holds no (truthy)
cached token first performs exactly one login, stores the returned token
in the store, and then issues the target call with the fresh bearer
header: the request trace grows by exactly one login request followed by
one target request, provided the target response is not a 401 (a 401
would trigger the separate retry flow of C1/C3). -/
theorem C2_cache_miss_login_then_target (env : Env) (s : CState) (tok : String)
    (hcache : pyTruthy (storGet s.cache) = false)
    (hst : (env.login s.nLogin).status = 200)
    (hbody : (env.login s.nLogin).body = some [("access_token", PyVal.str tok)])
    (htar : (env.target s.nTarget).status ≠ 401) :
    (Client.send_request env s).2.trace
      = s.trace ++ [Event.login, Event.target (some ("Bearer " ++ tok))] ∧
    (Client.send_request env s).2.cache = some (PyVal.str tok) ∧
    (Client.send_request env s).2.nLogin = s.nLogin + 1 ∧
    (Client.send_request env s).2.nTarget = s.nTarget + 1 := by
  have honce := send_request_once_refresh env s tok hcache hst hbody
  have hrm := request_and_map_not401 env
    { cache := some (PyVal.str tok)
      auth := some ("Bearer " ++ tok)
      nLogin := s.nLogin + 1
      nTarget := s.nTarget
      trace := s.trace ++ [Event.login] } htar
  have hsend := send_request_no_retry env s (by rw [honce]; exact hrm.2)
  rw [hsend, honce, hrm.1]
  simp

/-- C2 witness: from the empty state, with a login endpoint returning a
token and a target endpoint answering 200, the run issues exactly one
login request followed by one authenticated target request, and the
token is stored. -/
theorem C2_witness :
    (Client.send_request envC2w state0).2.trace
      = state0.trace ++ [Event.login, Event.target (some ("Bearer " ++ "tok1"))] ∧
    (Client.send_request envC2w state0).2.cache = some (PyVal.str "tok1") := by
  have h := C2_cache_miss_login_then_target envC2w state0 "tok1" rfl rfl rfl
    (by decide)
  exact ⟨h.1, h.2.1⟩

/-- Helper: Client._login never touches the target request counter. -/
theorem login_nTarget (env : Env) (s : CState) :
    (Client.login env s).2.nTarget = s.nTarget := by
  simp only [Client.login]
  split_ifs <;> (try split) <;> rfl

/-- Helper: Client._refresh_token never touches the target request
counter. -/
theorem refresh_token_nTarget (env : Env) (s : CState) :
    (Client.refresh_token env s).2.nTarget = s.nTarget := by
  have hl := login_nTarget env s
  unfold Client.refresh_token
  rcases h : Client.login env s with ⟨r, s1⟩
  rw [h] at hl
  cases r <;> simpa using hl

/-- Helper: the request-and-map stage makes exactly one target request. -/
theorem request_and_map_nTarget (env : Env) (s1 : CState) :
    (Client.request_and_map env s1).2.nTarget = s1.nTarget + 1 := by
  simp only [Client.request_and_map]
  split_ifs <;> (try split) <;> (try split) <;> rfl

/-- Helper: whatever the target endpoint answers, the request-and-map
stage appends exactly the one target request event carrying the current
header, and never changes the Authorization header or the login
counter. -/
theorem request_and_map_frame (env : Env) (s1 : CState) :
    (Client.request_and_map env s1).2.trace
      = s1.trace ++ [Event.target s1.auth] ∧
    (Client.request_and_map env s1).2.auth = s1.auth ∧
    (Client.request_and_map env s1).2.nLogin = s1.nLogin := by
  simp only [Client.request_and_map]
  split_ifs <;> (try split) <;> (try split) <;> exact ⟨rfl, rfl, rfl⟩

/-- Helper: one attempt of _send_request makes at most one target
request. -/
theorem send_request_once_nTarget_le (env : Env) (s : CState) :
    (Client.send_request_once env s).2.nTarget ≤ s.nTarget + 1 := by
  simp only [Client.send_request_once]
  by_cases hc : pyTruthy (storGet s.cache) = true
  · rw [if_pos hc]
    exact le_of_eq (request_and_map_nTarget env s)
  · have hr := refresh_token_nTarget env s
    rcases h : Client.refresh_token env s with ⟨r, s1⟩
    have hr2 : s1.nTarget = s.nTarget := by rw [h] at hr; exact hr
    rw [if_neg hc]
    cases r with
    | error e =>
      show s1.nTarget ≤ s.nTarget + 1
      omega
    | ok v =>
      show (Client.request_and_map env s1).2.nTarget ≤ s.nTarget + 1
      rw [request_and_map_nTarget]
      omega

/-- C1: when an authenticated request gets a 401 answer, the client
retries the original request exactly once; when the retry also gets 401,
the call surfaces BadTokenError and no third target request is made (the
hypotheses fix a cached token for the first attempt and a login endpoint
that answers the refresh between the attempts).  Unconditionally, any
_send_request call makes at most 2 target requests. -/
theorem C1_bounded_retry :
    (∀ (env : Env) (s : CState) (tok : String),
      pyTruthy (storGet s.cache) = true →
      (env.target s.nTarget).status = 401 →
      (env.target (s.nTarget + 1)).status = 401 →
      (env.login s.nLogin).status = 200 →
      (env.login s.nLogin).body = some [("access_token", PyVal.str tok)] →
      (Client.send_request env s).1 = Except.error PyErr.badTokenError ∧
      (Client.send_request env s).2.nTarget = s.nTarget + 2) ∧
    ∀ (env : Env) (s : CState),
      (Client.send_request env s).2.nTarget ≤ s.nTarget + 2 := by
  constructor
  · intro env s tok hcache h401a h401b hst hbody
    have honce1 : Client.send_request_once env s =
        (Except.error PyErr.badTokenError,
          { s with
            cache := Option.none
            nTarget := s.nTarget + 1
            trace := s.trace ++ [Event.target s.auth] }) := by
      rw [send_request_once_truthy env s hcache, request_and_map_401 env s h401a]
    have hsend := send_request_retry env s (by rw [honce1]; rfl)
    rw [hsend, honce1]
    have honce2 := send_request_once_refresh env
      { s with
        cache := Option.none
        nTarget := s.nTarget + 1
        trace := s.trace ++ [Event.target s.auth] } tok rfl hst hbody
    rw [honce2, request_and_map_401 env _ h401b]
    exact ⟨rfl, rfl⟩
  · intro env s
    have h1 := send_request_once_nTarget_le env s
    have h2 := send_request_once_nTarget_le env (Client.send_request_once env s).2
    simp only [Client.send_request]
    split_ifs with hb <;> omega

/-- C1 witness: with a cached token and a target endpoint that always
answers 401, the call surfaces BadTokenError after exactly 2 target
requests. -/
theorem C1_witness :
    (Client.send_request envC1w stateT).1 = Except.error PyErr.badTokenError ∧
    (Client.send_request envC1w stateT).2.nTarget = stateT.nTarget + 2 :=
  C1_bounded_retry.1 envC1w stateT "tok1" (by decide) rfl rfl rfl rfl

/-- C3: when a target call answers 401, the client deletes the cached
token (first conjunct: the first attempt ends with BadTokenError and an
empty cache), then performs a fresh login, updates the cache, and only
then retries the original request, which carries the header built from
the freshly obtained token rather than the stale one: the full trace is
the stale-header target request, then the login, then the target request
with the fresh bearer header, with exactly one login performed. -/
theorem C3_retry_carries_fresh_token (env : Env) (s : CState) (tok : String)
    (hcache : pyTruthy (storGet s.cache) = true)
    (h401 : (env.target s.nTarget).status = 401)
    (hst : (env.login s.nLogin).status = 200)
    (hbody : (env.login s.nLogin).body = some [("access_token", PyVal.str tok)]) :
    (Client.send_request_once env s).1 = Except.error PyErr.badTokenError ∧
    (Client.send_request_once env s).2.cache = Option.none ∧
    (Client.send_request env s).2.trace
      = s.trace ++ [Event.target s.auth, Event.login,
          Event.target (some ("Bearer " ++ tok))] ∧
    (Client.send_request env s).2.auth = some ("Bearer " ++ tok) ∧
    (Client.send_request env s).2.nLogin = s.nLogin + 1 := by
  have honce1 : Client.send_request_once env s =
      (Except.error PyErr.badTokenError,
        { s with
          cache := Option.none
          nTarget := s.nTarget + 1
          trace := s.trace ++ [Event.target s.auth] }) := by
    rw [send_request_once_truthy env s hcache, request_and_map_401 env s h401]
  have hsend := send_request_retry env s (by rw [honce1]; rfl)
  have honce2 := send_request_once_refresh env
    { s with
      cache := Option.none
      nTarget := s.nTarget + 1
      trace := s.trace ++ [Event.target s.auth] } tok rfl hst hbody
  have honce2c : Client.send_request_once env
      { s with
        cache := Option.none
        nTarget := s.nTarget + 1
        trace := s.trace ++ [Event.target s.auth] } =
      Client.request_and_map env
        { cache := some (PyVal.str tok)
          auth := some ("Bearer " ++ tok)
          nLogin := s.nLogin + 1
          nTarget := s.nTarget + 1
          trace := s.trace ++ [Event.target s.auth] ++ [Event.login] } := honce2
  have hfr := request_and_map_frame env
    { cache := some (PyVal.str tok)
      auth := some ("Bearer " ++ tok)
      nLogin := s.nLogin + 1
      nTarget := s.nTarget + 1
      trace := s.trace ++ [Event.target s.auth] ++ [Event.login] }
  refine ⟨by rw [honce1], by rw [honce1], ?_, ?_, ?_⟩
  · rw [hsend, honce1, honce2c, hfr.1]
    simp
  · rw [hsend, honce1, honce2c, hfr.2.1]
  · rw [hsend, honce1, honce2c, hfr.2.2]

/-- C3 witness: with a stale cached token and a target endpoint answering
401 then 200, the run issues the stale-header request, one login, and the
retry carrying the fresh bearer header. -/
theorem C3_witness :
    (Client.send_request envC3w stateT).2.trace
      = stateT.trace ++ [Event.target stateT.auth, Event.login,
          Event.target (some ("Bearer " ++ "tok1"))] ∧
    (Client.send_request envC3w stateT).2.auth
      = some ("Bearer " ++ "tok1") := by
  have h := C3_retry_carries_fresh_token envC3w stateT "tok1" (by decide)
    rfl rfl rfl
  exact ⟨h.2.2.1, h.2.2.2.1⟩

/-- Helper: when the target endpoint answers with a status that is not
401, not a 5xx and not 422, the request-and-map stage returns the
response unchanged. -/
theorem request_and_map_ok (env : Env) (s1 : CState)
    (h401 : (env.target s1.nTarget).status ≠ 401)
    (h5 : ¬(500 ≤ (env.target s1.nTarget).status ∧
        (env.target s1.nTarget).status ≤ 599))
    (h422 : (env.target s1.nTarget).status ≠ 422) :
    Client.request_and_map env s1 =
      (Except.ok (env.target s1.nTarget),
        { s1 with
          nTarget := s1.nTarget + 1
          trace := s1.trace ++ [Event.target s1.auth] }) := by
  simp only [Client.request_and_map]
  rw [if_neg h401, if_neg h5, if_neg h422]

/-- Helper: the request-and-map stage raises ServerError exactly when the
target status is a 5xx. -/
theorem request_and_map_server_iff (env : Env) (s1 : CState) :
    ((Client.request_and_map env s1).1
        = Except.error (PyErr.serverError "The server is failing, try later"))
      ↔ 500 ≤ (env.target s1.nTarget).status ∧
        (env.target s1.nTarget).status ≤ 599 := by
  simp only [Client.request_and_map]
  split_ifs with h1 h2 h3 <;> (try split) <;> (try split) <;> simp_all

/-- Helper: a 422 target status with a parsed body carrying the key
detail makes the request-and-map stage raise ValidationError with that
detail value. -/
theorem request_and_map_validation (env : Env) (s1 : CState) (o : Obj)
    (d : PyVal) (h422 : (env.target s1.nTarget).status = 422)
    (hbody : (env.target s1.nTarget).body = some o)
    (hlk : List.lookup "detail" o = some d) :
    (Client.request_and_map env s1).1
      = Except.error (PyErr.validationError d) := by
  simp only [Client.request_and_map]
  simp [h422, hbody, hlk]

/-- Helper: the request-and-map stage raises ValidationError only on a
422 target status. -/
theorem request_and_map_validation_status (env : Env) (s1 : CState)
    (d : PyVal)
    (h : (Client.request_and_map env s1).1
      = Except.error (PyErr.validationError d)) :
    (env.target s1.nTarget).status = 422 := by
  by_contra hne
  revert h
  simp only [Client.request_and_map]
  split_ifs <;> simp_all

/-- C4: for an authenticated call with a cached token, ServerError is
raised exactly when the target status is a 5xx, ValidationError carrying
the reported details is raised exactly on a 422 status; but the 201
insufficent-credit signal on a campaign launch does not surface as
InsufficientSmsError: the launch at a 201 response raises KeyError on the
key title instead (the Campaign.update slip of C6), while a plain 200
launch response with a full body succeeds normally. -/
theorem C4_status_mapping :
    (∀ (env : Env) (s : CState), pyTruthy (storGet s.cache) = true →
      (((Client.send_request_once env s).1
          = Except.error (PyErr.serverError "The server is failing, try later"))
        ↔ 500 ≤ (env.target s.nTarget).status ∧
          (env.target s.nTarget).status ≤ 599) ∧
      (∀ (o : Obj) (d : PyVal),
        (env.target s.nTarget).status = 422 →
        (env.target s.nTarget).body = some o →
        List.lookup "detail" o = some d →
        (Client.send_request_once env s).1
          = Except.error (PyErr.validationError d)) ∧
      (∀ d : PyVal,
        (Client.send_request_once env s).1
          = Except.error (PyErr.validationError d) →
        (env.target s.nTarget).status = 422)) ∧
    (Client.launch_campaign envC4a stateT cp0).1
      = Except.error (PyErr.keyError "title") ∧
    (Client.launch_campaign envC4b stateT cp0).1 = Except.ok () := by
  refine ⟨fun env s hc => ?_, rfl, rfl⟩
  rw [send_request_once_truthy env s hc]
  exact ⟨request_and_map_server_iff env s,
    fun o d h422 hbody hlk => request_and_map_validation env s o d h422 hbody hlk,
    fun d h => request_and_map_validation_status env s d h⟩

/-- C4 witness: with a cached token and a target endpoint answering 503,
the attempt raises ServerError. -/
theorem C4_witness :
    (Client.send_request_once envC4w stateT).1
      = Except.error (PyErr.serverError "The server is failing, try later") :=
  ((C4_status_mapping.1 envC4w stateT (by decide)).1).mpr (by decide)

/-- C9: read_campaign returns None when the server answers 404, but for
an existing id (a 200 answer) it raises AttributeError instead of
returning the Campaign: the source calls Campaign.from_dict, and
models.py defines from_response but no attribute from_dict. -/
theorem C9_read_campaign_404_and_attribute_error (env : Env) (s : CState)
    (hcache : pyTruthy (storGet s.cache) = true) :
    ((env.target s.nTarget).status = 404 →
      (Client.read_campaign env s).1 = Except.ok Option.none) ∧
    ((env.target s.nTarget).status = 200 →
      (Client.read_campaign env s).1
        = Except.error (PyErr.attributeError "from_dict")) := by
  constructor
  · intro h404
    have hok := request_and_map_ok env s (by omega) (by omega) (by omega)
    have honce := (send_request_once_truthy env s hcache).trans hok
    have hsend := send_request_no_retry env s (by rw [honce]; rfl)
    simp [Client.read_campaign, hsend, honce, h404]
  · intro h200
    have hok := request_and_map_ok env s (by omega) (by omega) (by omega)
    have honce := (send_request_once_truthy env s hcache).trans hok
    have hsend := send_request_no_retry env s (by rw [honce]; rfl)
    simp [Client.read_campaign, hsend, honce, h200]

/-- C9 witness: with a cached token and a target endpoint answering 404,
read_campaign returns the explicit absent value. -/
theorem C9_witness :
    (Client.read_campaign envC9w stateT).1 = Except.ok Option.none :=
  (C9_read_campaign_404_and_attribute_error envC9w stateT (by decide)).1 rfl

end Smsdrop
